import Mathlib

set_option linter.unusedVariables false

/-!
Verification model of the RamzLib reactive core.

Sources embedded here:
- `src/unnamed/part_003` (the observable module): class `Observable` with its
  constructor closures `trigger` / `done` / `fail`, the registration entry
  point `forEach`, the combinators `map`, `filter`, `reduce`, `subscribe`,
  `firstN`, `withTimeout`, the static factories `fromArray`, `just`, `empty`,
  and class `Subscription` with `fromListener`.
- `src/src/reactive/iterator.ts`: class `ObservableAsyncIterator`.

The JavaScript runs in a single cooperative execution context, so every
producer call (`trigger`, `done`, `fail`) and every promise settlement is
modelled as a pure transition on an explicit state.  A JS Promise is
modelled by `PromiseState`; a registered consumer (one element of the
`_callbacks` array) is modelled by `Slot`.
-/

/-- Settlement state of a JS Promise.  A promise settles at most once:
`resolve` / `reject` after settlement are silently ignored. -/
inductive PromiseState (E : Type) where
  | pending
  | resolved
  | rejected (err : E)
deriving DecidableEq, Repr

/-- The `resolve` capability handed to a Promise executor: settles the
promise as resolved, a no-op if the promise is already settled. -/
def PromiseState.resolve {E : Type} : PromiseState E → PromiseState E
  | .pending => .resolved
  | s => s

/-- The `reject(err)` capability handed to a Promise executor: settles the
promise as rejected with `err`, a no-op if already settled. -/
def PromiseState.reject {E : Type} (e : E) : PromiseState E → PromiseState E
  | .pending => .rejected e
  | s => s

/-- One entry of the `_callbacks` array of `Observable` (source type
`CallbackItem<T>` plus the bookkeeping this model needs).

`throws obj` gives the semantics of the listener body when invoked with
`obj`: `none` means the listener returns normally, `some e` means it throws
`e`.  `log` records, in order, the values the listener has been invoked
with.  `promise` is the deferred result created by `forEach` for this slot
(`resolve` / `reject` of `CallbackItem`).  `active` is false once the array
entry has been set to `undefined`; the record is kept so settled promises
remain observable.  `active` is only meaningful while the registry is
live. -/
structure Slot (T E : Type) where
  throws : T → Option E
  log : List T
  promise : PromiseState E
  active : Bool

/-- State of one `Observable<T>` instance.  `live` is true exactly while
`_callbacks !== undefined` (so `isDone()` returns `!live`); `slots` holds
every slot ever pushed, in registration order (an inactive slot stands for
an `undefined` array entry). -/
structure Observable (T E : Type) where
  live : Bool
  slots : List (Slot T E)

variable {T E A B R : Type}

/-- State of a freshly constructed `Observable` before its executor runs:
the field initializer `_callbacks = []`. -/
def Observable.init : Observable T E := ⟨true, []⟩

/-- `isDone()` of the source: `this._callbacks === undefined`. -/
def Observable.isDone (o : Observable T E) : Bool := !o.live

/-- Delivery of one triggered value to one registry entry, the body of the
`forEach` loop inside the `trigger` closure: skip `undefined` entries; call
the listener; if it throws, reject this slot and set this entry to
`undefined`. -/
def Slot.deliver (obj : T) (s : Slot T E) : Slot T E :=
  if s.active then
    match s.throws obj with
    | none => { s with log := s.log ++ [obj] }
    | some e =>
        { s with log := s.log ++ [obj], promise := s.promise.reject e,
                 active := false }
  else s

/-- The `trigger` closure of the `Observable` constructor: silently no-op
once `_callbacks` is `undefined`; otherwise walk the array delivering the
value to each non-`undefined` entry. -/
def Observable.trigger (o : Observable T E) (obj : T) : Observable T E :=
  if o.live then { o with slots := o.slots.map (Slot.deliver obj) } else o

/-- `d && d.resolve()` applied to one entry by the `done` closure. -/
def Slot.resolveSlot (s : Slot T E) : Slot T E :=
  if s.active then { s with promise := s.promise.resolve } else s

/-- `d && d.reject(err)` applied to one entry by the `fail` closure. -/
def Slot.rejectSlot (e : E) (s : Slot T E) : Slot T E :=
  if s.active then { s with promise := s.promise.reject e } else s

/-- The `done` closure of the constructor: silently no-op when already
terminal; otherwise resolve every non-`undefined` entry, then discard the
registry (`this._callbacks = undefined`). -/
def Observable.done (o : Observable T E) : Observable T E :=
  if o.live then ⟨false, o.slots.map Slot.resolveSlot⟩ else o

/-- The `fail` closure of the constructor: reject every non-`undefined`
entry with `err`, then discard the registry.  When already terminal the
walk is skipped and the assignment rewrites `undefined` with `undefined`,
leaving the state unchanged. -/
def Observable.fail (o : Observable T E) (e : E) : Observable T E :=
  if o.live then ⟨false, o.slots.map (Slot.rejectSlot e)⟩ else o

/-- Result of `forEach`: either the already-terminal early return
`Promise.resolve()` (an immediately resolved promise, no slot registered),
or the index of the freshly pushed slot whose promise is the returned
deferred. -/
inductive ForEachResult where
  | immediateResolved
  | slot (idx : Nat)
deriving DecidableEq, Repr

/-- `forEach(each)`: if `isDone()`, return `Promise.resolve()`; otherwise
push `{ listener: each, resolve, reject }` onto `_callbacks` and return the
new promise. -/
def Observable.forEach (o : Observable T E) (each : T → Option E) :
    Observable T E × ForEachResult :=
  if o.live then
    ({ o with slots := o.slots ++ [⟨each, [], .pending, true⟩] },
     .slot o.slots.length)
  else (o, .immediateResolved)

/-- One producer-side call on an observable. -/
inductive PCall (T E : Type) where
  | trigger (v : T)
  | done
  | fail (e : E)

/-- Apply one producer call. -/
def Observable.step (o : Observable T E) : PCall T E → Observable T E
  | .trigger v => o.trigger v
  | .done => o.done
  | .fail e => o.fail e

/-- Apply a sequence of producer calls in order. -/
def Observable.run (o : Observable T E) (calls : List (PCall T E)) :
    Observable T E :=
  calls.foldl Observable.step o

/-- Apply a sequence of `trigger` calls in order. -/
def Observable.runTriggers (o : Observable T E) (vs : List T) :
    Observable T E :=
  vs.foldl Observable.trigger o

/-- `Observable.fromArray(array)`: the executor runs synchronously inside
the constructor, triggering each element (to the empty registry) and then
calling `done()`, all before the constructor returns. -/
def Observable.fromArray (a : List T) : Observable T E :=
  (Observable.init.runTriggers a).done

/-- `Observable.just(val)`: trigger the value then `done()`, synchronously
inside the constructor. -/
def Observable.just (v : T) : Observable T E :=
  (Observable.init.trigger v).done

/-- `Observable.empty()`: the executor calls `done()` immediately. -/
def Observable.empty : Observable T E :=
  Observable.init.done

/-- A listener that records values and never throws. -/
def noThrowListener (T E : Type) : T → Option E := fun _ => none

-- Basic computation lemmas ---------------------------------------------------

theorem trigger_live (o : Observable T E) (v : T) :
    (o.trigger v).live = o.live := by
  unfold Observable.trigger; split <;> rfl

theorem runTriggers_live (o : Observable T E) (vs : List T) :
    (o.runTriggers vs).live = o.live := by
  induction vs generalizing o with
  | nil => rfl
  | cons a t ih =>
      show ((o.trigger a).runTriggers t).live = o.live
      rw [ih, trigger_live]

theorem step_of_dead (o : Observable T E) (c : PCall T E)
    (h : o.live = false) : o.step c = o := by
  cases c with
  | trigger v => simp [Observable.step, Observable.trigger, h]
  | done => simp [Observable.step, Observable.done, h]
  | fail e => simp [Observable.step, Observable.fail, h]

theorem run_of_dead (o : Observable T E) (cs : List (PCall T E))
    (h : o.live = false) : o.run cs = o := by
  induction cs with
  | nil => rfl
  | cons c t ih =>
      show (o.step c).run t = o
      rw [step_of_dead o c h, ih]

theorem getElem?_map_list (f : α → β) (l : List α) (i : Nat) :
    (l.map f)[i]? = (l[i]?).map f := by
  induction l generalizing i with
  | nil => simp
  | cons a t ih => cases i <;> simp [ih]

theorem getElem?_trigger (o : Observable T E) (v : T) (i : Nat)
    (h : o.live = true) :
    (o.trigger v).slots[i]? = (o.slots[i]?).map (Slot.deliver v) := by
  unfold Observable.trigger
  rw [if_pos h]
  exact getElem?_map_list _ _ _

theorem deliver_inactive (v : T) (s : Slot T E) (h : s.active = false) :
    Slot.deliver v s = s := by
  unfold Slot.deliver
  rw [h]
  rfl

theorem runTriggers_slot_inactive (vs : List T) (o : Observable T E)
    (i : Nat) (s : Slot T E)
    (hi : o.slots[i]? = some s) (h : s.active = false) :
    (o.runTriggers vs).slots[i]? = some s := by
  induction vs generalizing o with
  | nil => exact hi
  | cons a t ih =>
      show ((o.trigger a).runTriggers t).slots[i]? = some s
      apply ih
      by_cases hl : o.live = true
      · rw [getElem?_trigger o a i hl, hi]
        simp [deliver_inactive a s h]
      · have : o.live = false := by simpa using hl
        unfold Observable.trigger
        rw [this]
        simpa using hi

theorem deliver_ok (v : T) (s : Slot T E) (ha : s.active = true)
    (ht : s.throws v = none) :
    Slot.deliver v s = { s with log := s.log ++ [v] } := by
  unfold Slot.deliver
  rw [ha, ht]
  rfl

theorem deliver_throws (v : T) (s : Slot T E) (e : E) (ha : s.active = true)
    (hp : s.promise = .pending) (ht : s.throws v = some e) :
    Slot.deliver v s =
      { s with log := s.log ++ [v], promise := .rejected e,
               active := false } := by
  unfold Slot.deliver
  rw [ha, ht]
  simp [hp, PromiseState.reject]

theorem runTriggers_slot_ok (vs : List T) (o : Observable T E)
    (i : Nat) (s : Slot T E)
    (hl : o.live = true) (hi : o.slots[i]? = some s) (ha : s.active = true)
    (ht : ∀ u ∈ vs, s.throws u = none) :
    (o.runTriggers vs).slots[i]? = some { s with log := s.log ++ vs } := by
  induction vs generalizing o s with
  | nil => simpa using hi
  | cons a t ih =>
      show ((o.trigger a).runTriggers t).slots[i]? = _
      have hstep : (o.trigger a).slots[i]? =
          some { s with log := s.log ++ [a] } := by
        rw [getElem?_trigger o a i hl, hi]
        simp [deliver_ok a s ha (ht a (by simp))]
      have hlive2 : (o.trigger a).live = true := by rw [trigger_live]; exact hl
      have := ih (o.trigger a) { s with log := s.log ++ [a] } hlive2 hstep
        (by simpa using ha) (fun u hu => ht u (by simp [hu]))
      simpa using this

theorem getElem?_done (o : Observable T E) (i : Nat) (h : o.live = true) :
    (o.done).slots[i]? = (o.slots[i]?).map Slot.resolveSlot := by
  unfold Observable.done
  rw [if_pos h]
  exact getElem?_map_list _ _ _

theorem getElem?_fail (o : Observable T E) (e : E) (i : Nat)
    (h : o.live = true) :
    (o.fail e).slots[i]? = (o.slots[i]?).map (Slot.rejectSlot e) := by
  unfold Observable.fail
  rw [if_pos h]
  exact getElem?_map_list _ _ _

theorem runTriggers_init (a : List T) :
    (Observable.init : Observable T E).runTriggers a = Observable.init := by
  induction a with
  | nil => rfl
  | cons v t ih =>
      show (Observable.init.trigger v).runTriggers t = Observable.init
      exact ih

-- C4 -------------------------------------------------------------------------

/-- Claim C4: on a live observable, the first terminal signal (`done` or
`fail`) settles every currently registered pending slot exactly once
(resolving on `done`, rejecting with the error on `fail`) and discards the
registry; the resulting Done or Failed state is absorbing: every further
sequence of `trigger` / `done` / `fail` calls leaves the state unchanged,
so nothing is delivered to any consumer. -/
theorem terminal_signal_protocol (o : Observable T E) (e : E)
    (h : o.live = true) :
    (o.done).live = false
  ∧ (o.fail e).live = false
  ∧ (∀ (i : Nat) (s : Slot T E), o.slots[i]? = some s → s.active = true →
        s.promise = .pending →
        (o.done).slots[i]? = some { s with promise := .resolved })
  ∧ (∀ (i : Nat) (s : Slot T E), o.slots[i]? = some s → s.active = true →
        s.promise = .pending →
        (o.fail e).slots[i]? = some { s with promise := .rejected e })
  ∧ (∀ cs : List (PCall T E), (o.done).run cs = o.done)
  ∧ (∀ cs : List (PCall T E), (o.fail e).run cs = o.fail e) := by
  have hdl : (o.done).live = false := by
    unfold Observable.done; rw [if_pos h]
  have hfl : (o.fail e).live = false := by
    unfold Observable.fail; rw [if_pos h]
  refine ⟨hdl, hfl, ?_, ?_, ?_, ?_⟩
  · intro i s hi ha hp
    rw [getElem?_done o i h, hi]
    simp [Slot.resolveSlot, ha, hp, PromiseState.resolve]
  · intro i s hi ha hp
    rw [getElem?_fail o e i h, hi]
    simp [Slot.rejectSlot, ha, hp, PromiseState.reject]
  · intro cs; exact run_of_dead _ cs hdl
  · intro cs; exact run_of_dead _ cs hfl

/-- Concrete instance of claim C4: one registered pending slot, then
`done()`. -/
theorem terminal_signal_protocol_witness :
    ((⟨true, [⟨noThrowListener Nat Nat, [], .pending, true⟩]⟩ :
        Observable Nat Nat).done).live = false :=
  (terminal_signal_protocol
    (⟨true, [⟨noThrowListener Nat Nat, [], .pending, true⟩]⟩ :
      Observable Nat Nat) 0 rfl).1

-- C5 -------------------------------------------------------------------------

/-- Claim C5: when the listener of slot `i` throws `e` on value `v`, only
that slot is rejected (with the thrown value) and removed; a sibling slot
`j` whose listener does not throw keeps observing the whole remaining
value sequence in order, is still registered, and resolves with the
terminal outcome of the source, which stays live until its own `done`. -/
theorem listener_throw_isolated (o : Observable T E) (i j : Nat)
    (si sj : Slot T E) (v : T) (vs : List T) (e : E)
    (hlive : o.live = true)
    (hi : o.slots[i]? = some si) (hj : o.slots[j]? = some sj)
    (hsiA : si.active = true) (hsiP : si.promise = .pending)
    (hthrow : si.throws v = some e)
    (hsjA : sj.active = true) (hsjP : sj.promise = .pending)
    (hsjv : sj.throws v = none) (hsjvs : ∀ u ∈ vs, sj.throws u = none) :
    ((((o.trigger v).runTriggers vs).done).slots[i]? =
        some { si with log := si.log ++ [v], promise := .rejected e,
                       active := false })
  ∧ ((((o.trigger v).runTriggers vs).done).slots[j]? =
        some { sj with log := sj.log ++ (v :: vs), promise := .resolved })
  ∧ ((o.trigger v).runTriggers vs).live = true := by
  have hlive1 : (o.trigger v).live = true := by rw [trigger_live]; exact hlive
  have hlive2 : ((o.trigger v).runTriggers vs).live = true := by
    rw [runTriggers_live]; exact hlive1
  have hi1 : (o.trigger v).slots[i]? =
      some { si with log := si.log ++ [v], promise := .rejected e,
                     active := false } := by
    rw [getElem?_trigger o v i hlive, hi]
    simp [deliver_throws v si e hsiA hsiP hthrow]
  have hj1 : (o.trigger v).slots[j]? =
      some { sj with log := sj.log ++ [v] } := by
    rw [getElem?_trigger o v j hlive, hj]
    simp [deliver_ok v sj hsjA hsjv]
  have hi2 : ((o.trigger v).runTriggers vs).slots[i]? =
      some { si with log := si.log ++ [v], promise := .rejected e,
                     active := false } :=
    runTriggers_slot_inactive vs _ i _ hi1 rfl
  have hj2 : ((o.trigger v).runTriggers vs).slots[j]? =
      some { sj with log := (sj.log ++ [v]) ++ vs } := by
    have := runTriggers_slot_ok vs (o.trigger v) j
      { sj with log := sj.log ++ [v] } hlive1 hj1 (by simpa using hsjA)
      (fun u hu => hsjvs u hu)
    simpa using this
  refine ⟨?_, ?_, hlive2⟩
  · rw [getElem?_done _ i hlive2, hi2]
    simp [Slot.resolveSlot]
  · rw [getElem?_done _ j hlive2, hj2]
    simp [Slot.resolveSlot, hsjA, hsjP, PromiseState.resolve,
      List.append_assoc]

/-- The listener of the first consumer in the C5 scenario: records values,
throws 7 when invoked with 2. -/
def throwsOn2 : Nat → Option Nat := fun n => if n == 2 then some 7 else none

/-- The C5 scenario state: two registered consumers, both pending, both
having already observed value 1. -/
def obsC5 : Observable Nat Nat :=
  ⟨true, [⟨throwsOn2, [1], .pending, true⟩,
          ⟨noThrowListener Nat Nat, [1], .pending, true⟩]⟩

/-- Concrete instance of claim C5, the scenario of the spec: a source
delivering 1, 2, 3 then done; the first listener throws on 2 and only its
own slot is rejected and removed, while the second observes 1, 2, 3 and
resolves. -/
theorem listener_throw_isolated_witness :
    ((((obsC5.trigger 2).runTriggers [3]).done).slots[0]? =
        some ⟨throwsOn2, [1, 2], .rejected 7, false⟩)
  ∧ ((((obsC5.trigger 2).runTriggers [3]).done).slots[1]? =
        some ⟨noThrowListener Nat Nat, [1, 2, 3], .resolved, true⟩)
  ∧ ((obsC5.trigger 2).runTriggers [3]).live = true := by
  have h := listener_throw_isolated obsC5 0 1
    ⟨throwsOn2, [1], .pending, true⟩
    ⟨noThrowListener Nat Nat, [1], .pending, true⟩
    2 [3] 7 rfl rfl rfl rfl rfl rfl rfl rfl rfl
    (fun u hu => rfl)
  exact h

-- C2 -------------------------------------------------------------------------

/-- Modelled from the spec words of claim C2: what it means for the
deferred result returned by `forEach` to be rejected with error `e`.  In
the code the outcome is either the early return `Promise.resolve()` (never
a rejection) or a freshly registered slot, whose promise would have to be
settled rejected. -/
def rejectsWith (o : Observable T E) (r : ForEachResult) (e : E) : Prop :=
  match r with
  | .immediateResolved => False
  | .slot i => (o.slots[i]?).map Slot.promise = some (.rejected e)

/-- Counterexample to claim C2 as stated: after `fail(5)` on a fresh
observable, a later `forEach` returns the immediately resolved promise
`Promise.resolve()`; it does not reject with the recorded error 5 (indeed
no error is recorded anywhere in the state). -/
theorem forEach_after_fail_resolves :
    ((((Observable.init (T := Nat) (E := Nat)).fail 5).forEach
        (noThrowListener Nat Nat)).2 = ForEachResult.immediateResolved)
  ∧ ¬ rejectsWith
      (((Observable.init (T := Nat) (E := Nat)).fail 5).forEach
          (noThrowListener Nat Nat)).1
      (((Observable.init (T := Nat) (E := Nat)).fail 5).forEach
          (noThrowListener Nat Nat)).2
      5 :=
  ⟨rfl, fun h => h⟩

/-- Claim C2 (amended): on an observable that has already reached a
terminal state, a later `forEach` registers no slot (so its listener is
never invoked) and returns an immediately resolved promise — it resolves
whether the terminal signal was `done()` or `fail(err)`; no error is
recorded or replayed. -/
theorem forEach_post_terminal (o : Observable T E) (each : T → Option E)
    (h : o.isDone = true) :
    o.forEach each = (o, ForEachResult.immediateResolved) := by
  have hl : o.live = false := by
    unfold Observable.isDone at h
    simpa using h
  unfold Observable.forEach
  rw [hl]
  rfl

/-- Concrete instance of amended claim C2: `forEach` on a failed
observable. -/
theorem forEach_post_terminal_witness :
    ((Observable.init (T := Nat) (E := Nat)).fail 5).forEach
        (noThrowListener Nat Nat)
      = (((Observable.init (T := Nat) (E := Nat)).fail 5),
         ForEachResult.immediateResolved) :=
  forEach_post_terminal _ _ rfl

-- C10 ------------------------------------------------------------------------

/-- Claim C10: `Observable.fromArray(a)` and `Observable.just(v)` run their
executor synchronously inside the constructor, triggering every value while
the registry is still empty and calling `done()` before the factory
returns; the returned observable is therefore already terminal, carries no
slot (no consumer ever observed any value), and any later `forEach`
resolves immediately without invoking its listener. -/
theorem fromArray_just_already_terminal (a : List T) (v : T)
    (each : T → Option E) :
    ((Observable.fromArray a : Observable T E).isDone = true)
  ∧ ((Observable.fromArray a : Observable T E).slots = [])
  ∧ ((Observable.fromArray a : Observable T E).forEach each =
        (Observable.fromArray a, ForEachResult.immediateResolved))
  ∧ ((Observable.just v : Observable T E).isDone = true)
  ∧ ((Observable.just v : Observable T E).slots = [])
  ∧ ((Observable.just v : Observable T E).forEach each =
        (Observable.just v, ForEachResult.immediateResolved)) := by
  have hA : (Observable.fromArray a : Observable T E) = ⟨false, []⟩ := by
    unfold Observable.fromArray
    rw [runTriggers_init]
    rfl
  have hJ : (Observable.just v : Observable T E) = ⟨false, []⟩ := by
    unfold Observable.just
    rfl
  rw [hA, hJ]
  exact ⟨rfl, rfl, rfl, rfl, rfl, rfl⟩

-- Derived observables: map / filter ------------------------------------------

/-- World of `parent.map(mapper)` for a parent that is live when `map` is
called.  `parentLive` mirrors the parent `_callbacks` being defined, as
seen by the slot that the `this.forEach(...)` call inside the map executor
pushed; `slotActive` is that entry not being `undefined`; `slotPromise` is
the promise `forEach` returned (map attaches no continuation to it);
`derived` is the state of the new observable returned by `map`.  The
mapper is a captured closure, handed again to each transition. -/
structure MapPair (A B E : Type) where
  parentLive : Bool
  slotActive : Bool
  slotPromise : PromiseState E
  derived : Observable B E

/-- `Observable.map(mapper)`: the executor of the returned observable runs
synchronously and calls `this.forEach(obj => trigger(mapper(obj)))`; the
derived observable is still fresh at that point. -/
def Observable.map (f : A → B) : MapPair A B E :=
  ⟨true, true, .pending, Observable.init⟩

/-- Parent `trigger(a)` as observed through the map slot: the pushed
listener runs `trigger(mapper(obj))` on the derived observable, guarded by
the parent registry being live and the entry not `undefined`. -/
def MapPair.onTrigger (f : A → B) (w : MapPair A B E) (a : A) :
    MapPair A B E :=
  if w.parentLive && w.slotActive then
    { w with derived := w.derived.trigger (f a) }
  else w

/-- Parent `done()` as observed through the map slot: the slot promise is
resolved and the parent registry is discarded.  `map` hangs no
continuation on the `forEach` promise, so the derived observable receives
no signal. -/
def MapPair.onDone (w : MapPair A B E) : MapPair A B E :=
  if w.parentLive then
    { w with parentLive := false, slotPromise := w.slotPromise.resolve }
  else w

/-- Parent `fail(e)` as observed through the map slot: the slot promise is
rejected; again no continuation, so the derived observable receives no
signal. -/
def MapPair.onFail (w : MapPair A B E) (e : E) : MapPair A B E :=
  if w.parentLive then
    { w with parentLive := false, slotPromise := w.slotPromise.reject e }
  else w

/-- Register a consumer on the observable `map` returned. -/
def MapPair.forEachDerived (w : MapPair A B E) (each : B → Option E) :
    MapPair A B E × ForEachResult :=
  ({ w with derived := (w.derived.forEach each).1 },
   (w.derived.forEach each).2)

/-- A sequence of parent `trigger` calls on a map world. -/
def MapPair.runTriggers (f : A → B) (w : MapPair A B E) (vs : List A) :
    MapPair A B E :=
  vs.foldl (MapPair.onTrigger f) w

/-- World of `parent.filter(predicate)`, same shape as `MapPair`; here the
executor chains `.then(done).catch(fail)` on the `forEach` promise. -/
structure FilterPair (A E : Type) where
  parentLive : Bool
  slotActive : Bool
  slotPromise : PromiseState E
  derived : Observable A E

/-- `Observable.filter(predicate)`: the executor registers
`obj => { if (predicate(obj)) trigger(obj); }` via `this.forEach` and
chains `.then(done).catch(fail)`. -/
def Observable.filter (p : A → Bool) : FilterPair A E :=
  ⟨true, true, .pending, Observable.init⟩

/-- Parent `trigger(a)` through the filter slot: forward `a` to the
derived observable only when the predicate accepts it. -/
def FilterPair.onTrigger (p : A → Bool) (w : FilterPair A E) (a : A) :
    FilterPair A E :=
  if w.parentLive && w.slotActive then
    { w with derived := if p a then w.derived.trigger a else w.derived }
  else w

/-- Parent `done()` through the filter slot: the `forEach` promise
resolves and its `.then(done)` continuation (which runs on the microtask
queue before any further producer call) calls `done` on the derived
observable. -/
def FilterPair.onDone (w : FilterPair A E) : FilterPair A E :=
  if w.parentLive then
    { w with parentLive := false, slotPromise := w.slotPromise.resolve,
             derived := w.derived.done }
  else w

/-- Parent `fail(e)` through the filter slot: the promise rejects and the
`.catch(fail)` continuation fails the derived observable with `e`. -/
def FilterPair.onFail (w : FilterPair A E) (e : E) : FilterPair A E :=
  if w.parentLive then
    { w with parentLive := false, slotPromise := w.slotPromise.reject e,
             derived := w.derived.fail e }
  else w

/-- Register a consumer on the observable `filter` returned. -/
def FilterPair.forEachDerived (w : FilterPair A E) (each : A → Option E) :
    FilterPair A E × ForEachResult :=
  ({ w with derived := (w.derived.forEach each).1 },
   (w.derived.forEach each).2)

/-- A sequence of parent `trigger` calls on a filter world. -/
def FilterPair.runTriggers (p : A → Bool) (w : FilterPair A E)
    (vs : List A) : FilterPair A E :=
  vs.foldl (FilterPair.onTrigger p) w

theorem mapPair_run (f : A → B) (vs : List A) (w : MapPair A B E)
    (hp : w.parentLive = true) (hs : w.slotActive = true) :
    (MapPair.runTriggers f w vs).derived =
        w.derived.runTriggers (vs.map f)
  ∧ (MapPair.runTriggers f w vs).parentLive = true
  ∧ (MapPair.runTriggers f w vs).slotActive = true := by
  induction vs generalizing w with
  | nil => exact ⟨rfl, hp, hs⟩
  | cons a t ih =>
      have hstep : MapPair.onTrigger f w a =
          { w with derived := w.derived.trigger (f a) } := by
        unfold MapPair.onTrigger
        rw [hp, hs]
        rfl
      have hrun : MapPair.runTriggers f w (a :: t) =
          MapPair.runTriggers f
            { w with derived := w.derived.trigger (f a) } t := by
        show MapPair.runTriggers f (MapPair.onTrigger f w a) t = _
        rw [hstep]
      rw [hrun]
      exact ih { w with derived := w.derived.trigger (f a) } hp hs

theorem filterPair_run (p : A → Bool) (vs : List A) (w : FilterPair A E)
    (hp : w.parentLive = true) (hs : w.slotActive = true) :
    (FilterPair.runTriggers p w vs).derived =
        w.derived.runTriggers (vs.filter p)
  ∧ (FilterPair.runTriggers p w vs).parentLive = true
  ∧ (FilterPair.runTriggers p w vs).slotActive = true := by
  induction vs generalizing w with
  | nil => exact ⟨rfl, hp, hs⟩
  | cons a t ih =>
      by_cases hpa : p a = true
      · have hstep : FilterPair.onTrigger p w a =
            { w with derived := w.derived.trigger a } := by
          unfold FilterPair.onTrigger
          rw [hp, hs, hpa]
          rfl
        have hrun : FilterPair.runTriggers p w (a :: t) =
            FilterPair.runTriggers p
              { w with derived := w.derived.trigger a } t := by
          show FilterPair.runTriggers p (FilterPair.onTrigger p w a) t = _
          rw [hstep]
        have hfc : (a :: t).filter p = a :: t.filter p := by
          simp [List.filter_cons, hpa]
        rw [hrun, hfc]
        exact ih { w with derived := w.derived.trigger a } hp hs
      · have hfalse : p a = false := by simpa using hpa
        have hstep : FilterPair.onTrigger p w a = w := by
          unfold FilterPair.onTrigger
          rw [if_pos (show (w.parentLive && w.slotActive) = true by
            rw [hp, hs]; rfl)]
          rw [if_neg (show ¬ p a = true by rw [hfalse]; simp)]
        have hrun : FilterPair.runTriggers p w (a :: t) =
            FilterPair.runTriggers p w t := by
          show FilterPair.runTriggers p (FilterPair.onTrigger p w a) t = _
          rw [hstep]
        have hfc : (a :: t).filter p = t.filter p := by
          simp [List.filter_cons, hfalse]
        rw [hrun, hfc]
        exact ih w hp hs

/-- A map world with one never-throwing consumer registered on the derived
observable immediately after construction. -/
def mapWorld (f : A → B) : MapPair A B E :=
  ((Observable.map f).forEachDerived (noThrowListener B E)).1

/-- A filter world with one never-throwing consumer registered on the
derived observable immediately after construction. -/
def filterWorld (p : A → Bool) : FilterPair A E :=
  ((Observable.filter p).forEachDerived (noThrowListener A E)).1

/-- The mapper of the C3 example. -/
def doubleFn : Int → Int := fun n => n * 2

-- C3 -------------------------------------------------------------------------

/-- Counterexample to claim C3 as stated: a source triggering 1, 2, 3 and
then calling `done()`, mapped with doubling, delivers 2, 4, 6 to a
consumer of the mapped observable, but after the source is Done the mapped
observable has not reached Done: `map` never forwards the terminal
signal. -/
theorem map_does_not_forward_done :
    ((((mapWorld doubleFn : MapPair Int Int Nat).runTriggers doubleFn
        [1, 2, 3]).onDone.derived.slots[0]?).map Slot.log = some [2, 4, 6])
  ∧ (((mapWorld doubleFn : MapPair Int Int Nat).runTriggers doubleFn
        [1, 2, 3]).onDone.derived.isDone = false) := by
  constructor
  · decide
  · decide

/-- Claim C3 (amended): both combinators forward values to a consumer of
the derived observable — `map(f)` re-triggers `f(value)`, `filter(pred)`
passes through the values satisfying `pred` — and `filter` forwards the
terminal signal of the source verbatim: parent Done makes the derived
observable Done (resolving its consumers), parent `fail(e)` fails it
(rejecting its consumers with `e`).  `map`, however, forwards no terminal
signal at all: its executor hangs no continuation on the `forEach`
promise, so after parent Done or Fail the mapped observable is still not
terminal and its consumer stays pending. -/
theorem map_filter_forward (f : A → B) (p : A → Bool) (vs : List A)
    (e : E) :
    ((((mapWorld f : MapPair A B E).runTriggers f vs).onDone.derived.slots[0]?).map
        Slot.log = some (vs.map f))
  ∧ ((((mapWorld f : MapPair A B E).runTriggers f vs).onDone).derived.isDone
        = false)
  ∧ ((((mapWorld f : MapPair A B E).runTriggers f vs).onDone.derived.slots[0]?).map
        Slot.promise = some .pending)
  ∧ (((((mapWorld f : MapPair A B E).runTriggers f vs).onFail e).derived.isDone)
        = false)
  ∧ ((((filterWorld p : FilterPair A E).runTriggers p vs).onDone.derived.slots[0]?).map
        Slot.log = some (vs.filter p))
  ∧ ((((filterWorld p : FilterPair A E).runTriggers p vs).onDone).derived.isDone
        = true)
  ∧ ((((filterWorld p : FilterPair A E).runTriggers p vs).onDone.derived.slots[0]?).map
        Slot.promise = some .resolved)
  ∧ (((((filterWorld p : FilterPair A E).runTriggers p vs).onFail e).derived.isDone)
        = true)
  ∧ (((((filterWorld p : FilterPair A E).runTriggers p vs).onFail e).derived.slots[0]?).map
        Slot.promise = some (.rejected e)) := by
  have hr := mapPair_run f vs (mapWorld f : MapPair A B E) rfl rfl
  have hslot : ((mapWorld f : MapPair A B E).derived.runTriggers
      (vs.map f)).slots[0]? =
      some ⟨noThrowListener B E, vs.map f, .pending, true⟩ := by
    have := runTriggers_slot_ok (vs.map f)
      (mapWorld f : MapPair A B E).derived 0
      ⟨noThrowListener B E, [], .pending, true⟩ rfl rfl rfl
      (fun u hu => rfl)
    simpa using this
  have key : (((mapWorld f : MapPair A B E).runTriggers f vs).onDone).derived
      = (mapWorld f : MapPair A B E).derived.runTriggers (vs.map f) := by
    unfold MapPair.onDone
    rw [if_pos hr.2.1]
    exact hr.1
  have keyf : ((((mapWorld f : MapPair A B E).runTriggers f vs).onFail e)).derived
      = (mapWorld f : MapPair A B E).derived.runTriggers (vs.map f) := by
    unfold MapPair.onFail
    rw [if_pos hr.2.1]
    exact hr.1
  have hrF := filterPair_run p vs (filterWorld p : FilterPair A E) rfl rfl
  have hslotF : ((filterWorld p : FilterPair A E).derived.runTriggers
      (vs.filter p)).slots[0]? =
      some ⟨noThrowListener A E, vs.filter p, .pending, true⟩ := by
    have := runTriggers_slot_ok (vs.filter p)
      (filterWorld p : FilterPair A E).derived 0
      ⟨noThrowListener A E, [], .pending, true⟩ rfl rfl rfl
      (fun u hu => rfl)
    simpa using this
  have hliveF : ((filterWorld p : FilterPair A E).derived.runTriggers
      (vs.filter p)).live = true := by
    rw [runTriggers_live]; rfl
  have keyF : (((filterWorld p : FilterPair A E).runTriggers p vs).onDone).derived
      = ((filterWorld p : FilterPair A E).derived.runTriggers
          (vs.filter p)).done := by
    unfold FilterPair.onDone
    rw [if_pos hrF.2.1]
    show ((filterWorld p : FilterPair A E).runTriggers p vs).derived.done = _
    rw [hrF.1]
  have keyFf : ((((filterWorld p : FilterPair A E).runTriggers p vs).onFail e)).derived
      = ((filterWorld p : FilterPair A E).derived.runTriggers
          (vs.filter p)).fail e := by
    unfold FilterPair.onFail
    rw [if_pos hrF.2.1]
    show (((filterWorld p : FilterPair A E).runTriggers p vs).derived.fail e) = _
    rw [hrF.1]
  refine ⟨?_, ?_, ?_, ?_, ?_, ?_, ?_, ?_, ?_⟩
  · rw [key, hslot]; rfl
  · rw [key]
    unfold Observable.isDone
    rw [runTriggers_live]
    rfl
  · rw [key, hslot]; rfl
  · rw [keyf]
    unfold Observable.isDone
    rw [runTriggers_live]
    rfl
  · rw [keyF, getElem?_done _ 0 hliveF, hslotF]
    simp [Slot.resolveSlot, PromiseState.resolve]
  · rw [keyF]
    unfold Observable.isDone
    have : (((filterWorld p : FilterPair A E).derived.runTriggers
        (vs.filter p)).done).live = false := by
      unfold Observable.done
      rw [if_pos hliveF]
    rw [this]
    rfl
  · rw [keyF, getElem?_done _ 0 hliveF, hslotF]
    simp [Slot.resolveSlot, PromiseState.resolve]
  · rw [keyFf]
    unfold Observable.isDone
    have : (((filterWorld p : FilterPair A E).derived.runTriggers
        (vs.filter p)).fail e).live = false := by
      unfold Observable.fail
      rw [if_pos hliveF]
    rw [this]
    rfl
  · rw [keyFf, getElem?_fail _ e 0 hliveF, hslotF]
    simp [Slot.rejectSlot, PromiseState.reject]

-- Derived observable: reduce --------------------------------------------------

/-- World of `parent.reduce(initialValue, reducer)` for a live parent,
same shape as `FilterPair` plus `acc`, the captured `initialValue`
variable that the listener mutates. -/
structure ReducePair (A R E : Type) where
  parentLive : Bool
  slotActive : Bool
  slotPromise : PromiseState E
  acc : R
  derived : Observable R E

/-- `Observable.reduce(initialValue, reducer)`: the executor runs
synchronously and first calls `trigger(initialValue)` on the freshly
constructed derived observable — whose registry is still empty, so the
seed is delivered to nobody — then registers on the parent via
`this.forEach(...)`, chaining `.then(done).catch(fail)`. -/
def Observable.reduce (seed : R) : ReducePair A R E :=
  ⟨true, true, .pending, seed, Observable.init.trigger seed⟩

/-- Parent `trigger(a)` through the reduce slot: the listener updates the
captured accumulator and triggers the new accumulation on the derived
observable. -/
def ReducePair.onTrigger (reducer : R → A → R) (w : ReducePair A R E)
    (a : A) : ReducePair A R E :=
  if w.parentLive && w.slotActive then
    { w with acc := reducer w.acc a,
             derived := w.derived.trigger (reducer w.acc a) }
  else w

/-- Parent `done()` through the reduce slot: the `forEach` promise
resolves and its `.then(done)` continuation calls `done` on the derived
observable. -/
def ReducePair.onDone (w : ReducePair A R E) : ReducePair A R E :=
  if w.parentLive then
    { w with parentLive := false, slotPromise := w.slotPromise.resolve,
             derived := w.derived.done }
  else w

/-- Parent `fail(e)` through the reduce slot: the `.catch(fail)`
continuation fails the derived observable with `e`. -/
def ReducePair.onFail (w : ReducePair A R E) (e : E) : ReducePair A R E :=
  if w.parentLive then
    { w with parentLive := false, slotPromise := w.slotPromise.reject e,
             derived := w.derived.fail e }
  else w

/-- Register a consumer on the observable `reduce` returned. -/
def ReducePair.forEachDerived (w : ReducePair A R E) (each : R → Option E) :
    ReducePair A R E × ForEachResult :=
  ({ w with derived := (w.derived.forEach each).1 },
   (w.derived.forEach each).2)

/-- A sequence of parent `trigger` calls on a reduce world. -/
def ReducePair.runTriggers (reducer : R → A → R) (w : ReducePair A R E)
    (vs : List A) : ReducePair A R E :=
  vs.foldl (ReducePair.onTrigger reducer) w

/-- The running accumulations `reduce` emits after the seed: for each
non-empty prefix of the input, the fold of the reducer over it. -/
def accumulations (reducer : R → A → R) (acc : R) : List A → List R
  | [] => []
  | a :: t => reducer acc a :: accumulations reducer (reducer acc a) t

theorem reducePair_run (reducer : R → A → R) (vs : List A)
    (w : ReducePair A R E) (hp : w.parentLive = true)
    (hs : w.slotActive = true) :
    (ReducePair.runTriggers reducer w vs).derived =
        w.derived.runTriggers (accumulations reducer w.acc vs)
  ∧ (ReducePair.runTriggers reducer w vs).parentLive = true
  ∧ (ReducePair.runTriggers reducer w vs).slotActive = true := by
  induction vs generalizing w with
  | nil => exact ⟨rfl, hp, hs⟩
  | cons a t ih =>
      have hstep : ReducePair.onTrigger reducer w a =
          { w with acc := reducer w.acc a,
                   derived := w.derived.trigger (reducer w.acc a) } := by
        unfold ReducePair.onTrigger
        rw [hp, hs]
        rfl
      have hrun : ReducePair.runTriggers reducer w (a :: t) =
          ReducePair.runTriggers reducer
            { w with acc := reducer w.acc a,
                     derived := w.derived.trigger (reducer w.acc a) } t := by
        show ReducePair.runTriggers reducer
          (ReducePair.onTrigger reducer w a) t = _
        rw [hstep]
      rw [hrun]
      exact ih { w with acc := reducer w.acc a,
                        derived := w.derived.trigger (reducer w.acc a) }
        hp hs

/-- A reduce world with one never-throwing consumer registered on the
derived observable immediately after construction — the earliest moment a
consumer can exist. -/
def reduceWorld (seed : R) : ReducePair A R E :=
  ((Observable.reduce seed).forEachDerived (noThrowListener R E)).1

/-- The reducer of the C8 example. -/
def addFn : Int → Int → Int := fun a b => a + b

-- C8 -------------------------------------------------------------------------

/-- Counterexample to claim C8 as stated: source emitting 1 then 2 then
done, reduced with seed 0 and addition.  A consumer registered on the
derived observable immediately after `reduce` returns — the earliest
possible registration — observes 1 and 3 only, not 0, 1, 3: the seed was
triggered synchronously inside the constructor, before any consumer could
exist. -/
theorem reduce_seed_unobserved :
    ((((reduceWorld 0 : ReducePair Int Int Nat).runTriggers addFn
        [1, 2]).onDone.derived.slots[0]?).map Slot.log = some [1, 3])
  ∧ ((((reduceWorld 0 : ReducePair Int Int Nat).runTriggers addFn
        [1, 2]).onDone.derived.slots[0]?).map Slot.log ≠ some [0, 1, 3]) := by
  constructor
  · decide
  · decide

/-- Claim C8 (amended): `reduce(seed, combine)` calls `trigger(seed)`
synchronously during construction, while the derived registry is still
empty, so the seed is delivered to no consumer; thereafter each parent
value triggers the new running accumulation, and the parent terminal
signal is forwarded: Done resolves a registered consumer, `fail(e)`
rejects it with `e`.  A consumer registered immediately after construction
therefore observes exactly the accumulations (for source 1, 2 with seed 0
and addition: 1 then 3) and then the terminal outcome. -/
theorem reduce_semantics (seed : R) (reducer : R → A → R) (vs : List A)
    (e : E) :
    ((Observable.reduce seed : ReducePair A R E).derived.slots = [])
  ∧ ((((reduceWorld seed : ReducePair A R E).runTriggers reducer
        vs).onDone.derived.slots[0]?).map Slot.log =
        some (accumulations reducer seed vs))
  ∧ ((((reduceWorld seed : ReducePair A R E).runTriggers reducer
        vs).onDone).derived.isDone = true)
  ∧ ((((reduceWorld seed : ReducePair A R E).runTriggers reducer
        vs).onDone.derived.slots[0]?).map Slot.promise = some .resolved)
  ∧ (((((reduceWorld seed : ReducePair A R E).runTriggers reducer
        vs).onFail e).derived.isDone) = true)
  ∧ (((((reduceWorld seed : ReducePair A R E).runTriggers reducer
        vs).onFail e).derived.slots[0]?).map Slot.promise =
        some (.rejected e)) := by
  have hr := reducePair_run reducer vs (reduceWorld seed : ReducePair A R E)
    rfl rfl
  have hacc : (reduceWorld seed : ReducePair A R E).acc = seed := rfl
  have hslot : ((reduceWorld seed : ReducePair A R E).derived.runTriggers
      (accumulations reducer seed vs)).slots[0]? =
      some ⟨noThrowListener R E, accumulations reducer seed vs, .pending,
            true⟩ := by
    have := runTriggers_slot_ok (accumulations reducer seed vs)
      (reduceWorld seed : ReducePair A R E).derived 0
      ⟨noThrowListener R E, [], .pending, true⟩ rfl rfl rfl
      (fun u hu => rfl)
    simpa using this
  have hlive : ((reduceWorld seed : ReducePair A R E).derived.runTriggers
      (accumulations reducer seed vs)).live = true := by
    rw [runTriggers_live]; rfl
  have key : (((reduceWorld seed : ReducePair A R E).runTriggers reducer
      vs).onDone).derived =
      ((reduceWorld seed : ReducePair A R E).derived.runTriggers
        (accumulations reducer seed vs)).done := by
    unfold ReducePair.onDone
    rw [if_pos hr.2.1]
    show ((reduceWorld seed : ReducePair A R E).runTriggers reducer
      vs).derived.done = _
    rw [hr.1, hacc]
  have keyf : ((((reduceWorld seed : ReducePair A R E).runTriggers reducer
      vs).onFail e)).derived =
      ((reduceWorld seed : ReducePair A R E).derived.runTriggers
        (accumulations reducer seed vs)).fail e := by
    unfold ReducePair.onFail
    rw [if_pos hr.2.1]
    show (((reduceWorld seed : ReducePair A R E).runTriggers reducer
      vs).derived.fail e) = _
    rw [hr.1, hacc]
  refine ⟨rfl, ?_, ?_, ?_, ?_, ?_⟩
  · rw [key, getElem?_done _ 0 hlive, hslot]
    simp [Slot.resolveSlot, PromiseState.resolve]
  · rw [key]
    unfold Observable.isDone
    have : (((reduceWorld seed : ReducePair A R E).derived.runTriggers
        (accumulations reducer seed vs)).done).live = false := by
      unfold Observable.done
      rw [if_pos hlive]
    rw [this]
    rfl
  · rw [key, getElem?_done _ 0 hlive, hslot]
    simp [Slot.resolveSlot, PromiseState.resolve]
  · rw [keyf]
    unfold Observable.isDone
    have : (((reduceWorld seed : ReducePair A R E).derived.runTriggers
        (accumulations reducer seed vs)).fail e).live = false := by
      unfold Observable.fail
      rw [if_pos hlive]
    rw [this]
    rfl
  · rw [keyf, getElem?_fail _ e 0 hlive, hslot]
    simp [Slot.rejectSlot, PromiseState.reject]

-- subscribe / firstN / withTimeout --------------------------------------------

/-- The guard opening the body of `Observable.subscribe`:
`if (this.isDone) { return Observable.empty(); }`.  In JavaScript
`this.isDone` without parentheses evaluates to the method object itself,
not to its result, and a function object is always truthy, so this guard
is always taken (the apparent intent was `this.isDone()`). -/
def isDone_method_truthy : Bool := true

/-- `Observable.subscribe(executor)`, as the state of the observable it
returns.  Because the guard above is always true, the early return
`Observable.empty()` is always taken; the remainder of the body — pushing
a `preTrigger` slot onto the parent registry and handing
`unsubscribeDone` / `unsubscribeFail` to the caller-supplied executor —
is dead code.  (Were the guard false, the returned state would be
`Observable.init`: the executor of the new observable only pushes onto
the parent and schedules callbacks, leaving the new registry fresh.) -/
def Observable.subscribe (o : Observable T E) : Observable T E :=
  if isDone_method_truthy then Observable.empty else Observable.init

/-- `Observable.firstN(n)`: `if (n <= 0) return Observable.empty();` else
`this.subscribe(...)` with a counting listener — which the always-taken
early return of `subscribe` discards without ever invoking. -/
def Observable.firstN (o : Observable T E) (n : Int) : Observable T E :=
  if n ≤ 0 then Observable.empty else o.subscribe

/-- `Observable.withTimeout(timeoutMs)`: `this.subscribe((unsubscribe,
failT) => { setTimeout(() => failT(ERROR_TIMEOUT), timeoutMs); })`.  The
setup closure would schedule the timeout, but `subscribe` never invokes
it (dead branch), so no timer exists and the result is
`Observable.empty()`. -/
def Observable.withTimeout (o : Observable T E) (timeoutMs : Int) :
    Observable T E :=
  o.subscribe

-- C1 -------------------------------------------------------------------------

/-- Claim C1, evaluated on the code (the claim fails for n > 0): for every
source and every n — in particular the failing input n = 2 over a source
that triggers 1, 2, 3 then done — `firstN(n)` is `Observable.empty()`:
already terminal when the call returns, with an empty registry; any later
`forEach` resolves immediately and its listener never observes a value.
So for n > 0 the first n source values are never forwarded (for n ≤ 0 the
empty result is what the claim asks).  Root cause: the guard
`if (this.isDone)` in `subscribe` tests the method reference, which is
always truthy. -/
theorem firstN_always_empty (o : Observable T E) (n : Int)
    (each : T → Option E) :
    o.firstN n = Observable.empty
  ∧ (o.firstN n).isDone = true
  ∧ (o.firstN n).slots = []
  ∧ (o.firstN n).forEach each =
      (Observable.empty, ForEachResult.immediateResolved) := by
  have h : o.firstN n = Observable.empty := by
    unfold Observable.firstN Observable.subscribe
    split <;> rfl
  refine ⟨h, ?_, ?_, ?_⟩ <;> rw [h] <;> rfl

-- C6 -------------------------------------------------------------------------

/-- Claim C6, evaluated on the code (the claim fails): for every source
and every duration, `withTimeout(ms)` is `Observable.empty()`: the setup
closure that would schedule the timeout is never invoked (dead branch of
`subscribe`), so the derived observable neither forwards any source value
or outcome, nor can it ever fail with the Timeout error — it is already
successfully Done, with an empty registry, when the call returns. -/
theorem withTimeout_always_empty (o : Observable T E) (ms : Int)
    (each : T → Option E) :
    o.withTimeout ms = Observable.empty
  ∧ (o.withTimeout ms).isDone = true
  ∧ (o.withTimeout ms).slots = []
  ∧ (o.withTimeout ms).forEach each =
      (Observable.empty, ForEachResult.immediateResolved) := by
  exact ⟨rfl, rfl, rfl, rfl⟩

-- Pull adapter ----------------------------------------------------------------

/-- Outcome carried by a settled pull promise or by an immediately
settled `next()` return: a value, the `AsyncIteratorDone` marker, or a
failure replay. -/
inductive PullOutcome (T E : Type) where
  | value (t : T)
  | doneMarker
  | failure (e : E)
deriving DecidableEq, Repr

/-- State of `ObservableAsyncIterator` (src/src/reactive/iterator.ts):
`demanded` holds identities of pending pull promises in FIFO order,
`queued` the values produced but not yet pulled, `done` the memoized
terminal promise (`undefined` until the source terminates; `Except.ok`
for the resolved Done marker, `Except.error` for the rejection replay).
`nextId` supplies fresh pull identities; `settled` logs, in order, every
settlement of a pull promise performed by the push side. -/
structure ObservableAsyncIterator (T E : Type) where
  demanded : List Nat
  queued : List T
  done : Option (Except E Unit)
  nextId : Nat
  settled : List (Nat × PullOutcome T E)

/-- Adapter state right after construction over a non-terminal source:
both queues empty, `done` undefined. -/
def ObservableAsyncIterator.init : ObservableAsyncIterator T E :=
  ⟨[], [], none, 0, []⟩

/-- The `forEach` listener of the adapter constructor, run at each source
value: `const demanded = this.demanded.shift(); if (demanded)
demanded.resolve(object); else this.queued.push(object);`. -/
def ObservableAsyncIterator.onValue (it : ObservableAsyncIterator T E)
    (obj : T) : ObservableAsyncIterator T E :=
  match it.demanded with
  | d :: rest =>
      { it with demanded := rest,
                settled := it.settled ++ [(d, .value obj)] }
  | [] => { it with queued := it.queued ++ [obj] }

/-- The `.then` continuation of the adapter constructor: memoize the
resolved Done promise and resolve every pending pull with the Done
marker, then clear `demanded`. -/
def ObservableAsyncIterator.onDone (it : ObservableAsyncIterator T E) :
    ObservableAsyncIterator T E :=
  { it with done := some (.ok ()), demanded := [],
            settled := it.settled ++
              it.demanded.map (fun d => (d, .doneMarker)) }

/-- The `.catch` continuation: memoize the rejected promise and reject
every pending pull with the error, then clear `demanded`. -/
def ObservableAsyncIterator.onFail (it : ObservableAsyncIterator T E)
    (e : E) : ObservableAsyncIterator T E :=
  { it with done := some (.error e), demanded := [],
            settled := it.settled ++
              it.demanded.map (fun d => (d, .failure e)) }

/-- Result of one `next()` call: an immediately settled promise carrying
a pull outcome, or a fresh pending pull promise with the given
identity. -/
inductive NextResult (T E : Type) where
  | immediate (r : PullOutcome T E)
  | pendingPull (id : Nat)
deriving DecidableEq, Repr

/-- The tail of `next()` once the shifted queue head was not returned:
`if (this.done) return this.done;` else register a pending pull. -/
def ObservableAsyncIterator.nextTail (it : ObservableAsyncIterator T E) :
    ObservableAsyncIterator T E × NextResult T E :=
  match it.done with
  | some (.ok _) => (it, .immediate .doneMarker)
  | some (.error e) => (it, .immediate (.failure e))
  | none =>
      ({ it with demanded := it.demanded ++ [it.nextId],
                 nextId := it.nextId + 1 },
       .pendingPull it.nextId)

/-- `next()`: `const queued = this.queued.shift(); if (queued) return
Promise.resolve(queued);` — `shift()` removes the head unconditionally
and the test is JS truthiness of the removed value (`truthy`); a falsy
head is removed from the queue yet not returned, and the code falls
through to the done test / pull registration. -/
def ObservableAsyncIterator.next (truthy : T → Bool)
    (it : ObservableAsyncIterator T E) :
    ObservableAsyncIterator T E × NextResult T E :=
  match it.queued with
  | q :: rest =>
      if truthy q then
        ({ it with queued := rest }, .immediate (.value q))
      else ObservableAsyncIterator.nextTail { it with queued := rest }
  | [] => ObservableAsyncIterator.nextTail it

/-- JS truthiness of a number under the integer model (0 is falsy). -/
def jsTruthyInt : Int → Bool := fun n => n != 0

-- C7 -------------------------------------------------------------------------

/-- Claim C7, evaluated on the code (the claim fails on falsy values): the
adapter over a number source receives the value 0 with no pull pending, so
0 is queued; the claim requires the following `next()` to return the
queued value immediately, but the code shifts 0 off the queue, finds it
falsy, and — the source being non-terminal — registers a pending pull
instead: the queued 0 is silently dropped. -/
theorem next_drops_falsy_queued :
    (((ObservableAsyncIterator.init (T := Int) (E := Nat)).onValue
        0).queued = [0])
  ∧ ((((ObservableAsyncIterator.init (T := Int) (E := Nat)).onValue
        0).next jsTruthyInt).2 = NextResult.pendingPull 0)
  ∧ ((((ObservableAsyncIterator.init (T := Int) (E := Nat)).onValue
        0).next jsTruthyInt).1.queued = []) := by
  exact ⟨rfl, rfl, rfl⟩

-- Subscription.fromListener ----------------------------------------------------

/-- Identity of a JS function value handed to `addEventListener` /
`removeEventListener` inside `Subscription.fromListener`: `wrapperFn` is
the anonymous arrow `cb => trigger(cb)` that gets added, `triggerFn` the
`trigger` function itself, which the removal call names.  They are
distinct function objects. -/
inductive ListenerFn where
  | wrapperFn
  | triggerFn
deriving DecidableEq, Repr

/-- Listeners registered on the element for the relevant event, in
registration order. -/
structure ElementState where
  listeners : List ListenerFn
deriving DecidableEq, Repr

/-- `element.addEventListener(event, f)`. -/
def addEventListener (el : ElementState) (f : ListenerFn) : ElementState :=
  ⟨el.listeners ++ [f]⟩

/-- `element.removeEventListener(event, f)`: removes the matching
registration of `f`, a no-op when `f` is not registered. -/
def removeEventListener (el : ElementState) (f : ListenerFn) :
    ElementState :=
  ⟨el.listeners.erase f⟩

/-- The exception a `Subscription.fromListener` construction attempt
raises. -/
inductive JsRefError where
  | thisBeforeSuper
deriving DecidableEq, Repr

/-- ES6 semantics of an access to `this` in a derived-class constructor:
legal only once `super()` has returned; while `super()` is still
executing, the binding is in its temporal dead zone and the access throws
ReferenceError.  The build targets ES6 (gulpfile `target: ES6`), so no
downlevel rewriting hides this. -/
def readThisDuringSuper (thisInitialized : Bool) :
    Except JsRefError Unit :=
  if thisInitialized then .ok () else .error .thisBeforeSuper

/-- The arrow that the `Subscription` constructor passes to `super(...)`.
The `Observable` constructor body invokes it synchronously (its last
statement is `executor(trigger, done, fail)`), i.e. while `super()` is
still running.  Its first statement is `this.dispose = done`, an access
to the still-dead `this`; only if that succeeded would the
caller-supplied executor run — for `fromListener`:
`element.addEventListener(event, cb => trigger(cb))` followed by
`sub.then(() => element.removeEventListener(event, trigger))`.  The pair
returned is the element (JS exceptions roll back nothing, but no
statement touching the element was reached) together with either the
exception or normal completion. -/
def Subscription.executorWrapper (el : ElementState) :
    ElementState × Except JsRefError Unit :=
  match readThisDuringSuper false with
  | .error e => (el, .error e)
  | .ok _ => (addEventListener el .wrapperFn, .ok ())

/-- `Subscription.fromListener(element, event)` under the ES6 build:
evaluating `new Subscription(...)` runs the wrapper above inside
`super()`, so the construction attempt throws at `this.dispose = done`
before `element.addEventListener` executes: no subscription value is
produced and the element is untouched.  (Even were the `this` access
legal, the executor also reads `sub` — the `const` being initialized by
this very `new` expression — inside `sub.then(...)`, a further temporal
dead zone error, so the removal continuation could never be registered
under any target; `removeEventListener` with the never-added `triggerFn`
would then still be a no-op.) -/
def Subscription.fromListener (el : ElementState) :
    ElementState × Except JsRefError Unit :=
  Subscription.executorWrapper el

-- C9 -------------------------------------------------------------------------

/-- Claim C9, evaluated on the code (the claim fails): under the ES6
build target, `Subscription.fromListener(element, event)` throws
ReferenceError at `this.dispose = done` inside `super()`, before
`element.addEventListener` runs.  Construction never completes: not one
listener is added to the element, there is no subscription to dispose,
and consequently no removal ever happens — against the claim, which says
construction adds exactly one listener and the first of dispose or
natural completion removes it exactly once. -/
theorem fromListener_construction_throws :
    (Subscription.fromListener ⟨[]⟩ =
        (⟨[]⟩, Except.error JsRefError.thisBeforeSuper))
  ∧ ((Subscription.fromListener ⟨[]⟩).1.listeners = []) := by
  exact ⟨rfl, rfl⟩
